import Mathlib

/-!
Verification of the entity-enrichment proxy service (server.js).

The service is an Express HTTP proxy in front of the OpenCorporates API.
Each route handler is a straight-line pipeline: validate caller input,
check the server-held API token, build the outbound query parameters,
issue one HTTPS GET, buffer the body, run JSON.parse on it, extract
entity subtrees with the jsonpath package (jp.query), and assemble a
JSON envelope.

Embedding conventions:
* JSON values are the inductive `Json` below; objects keep their key
  insertion order (JavaScript objects enumerate string keys in insertion
  order, which is what both JSON.parse and jp.query see).
* JSON.parse together with its surrounding try/catch is modelled by
  giving the response-end handler an `Option Json` argument:
  `some payload` when the buffered body parses, `none` when JSON.parse
  throws and control moves to the catch block.
* Entries of process.env read by the handlers (OPEN_CORPORATES_KEY) are
  `Option String` arguments; undefined is `none`.  JavaScript truthiness
  on such values (the checks `if (!q)` and `if (!apiToken)`) is
  `isTruthy` below: among strings only the empty one is falsy.
* The handlers are split exactly where the code is split: a Pre function
  covering everything before https.request is called (validation, token
  check, parameter building), and an OnEnd function for the response-end
  callback that runs once the body is buffered.  A Pre result of
  `.respond` corresponds to an early return with res.status(...).json(...):
  no upstream request object is ever created on that branch.
* The error member of the catch-branch envelopes is the exception message
  when NODE_ENV is development and undefined otherwise; an undefined
  property is dropped by res.json.  The model fixes the production mode,
  where the member is absent; no claim inspects that member.
-/

/-- A JSON value as produced by JSON.parse: object members keep insertion
order.  Numbers are modelled as integers (the only numbers the handlers
themselves produce are list lengths). -/
inductive Json where
  | null
  | bool (b : Bool)
  | num (n : Int)
  | str (s : String)
  | arr (elems : List Json)
  | obj (members : List (String × Json))
deriving Inhabited

namespace Json

/-- Member access on a parsed JSON value: `some` of the value of member `k`
when the input is an object with that key, otherwise `none`.  (Objects
built by JSON.parse have distinct keys, so first match is the match.) -/
def lookup (j : Json) (k : String) : Option Json :=
  match j with
  | .obj members => (members.find? (fun m => m.1 = k)).map (·.2)
  | _ => none

mutual
/-- The jsonpath descendant operator: `descend k j` is what jp.query
returns for a descendant search for key `k` below anchor `j`: the values
of every member named `k` at any depth strictly below `j`, in the package
document order (for each child in enumeration order: emit it if its key is
`k`, then recurse into it; array elements are recursed into, but an array
index never matches a string key). -/
def descend (k : String) : Json → List Json
  | .obj members => descendMembers k members
  | .arr elems => descendElems k elems
  | _ => []

/-- Descendant search over the member list of an object, in insertion
order. -/
def descendMembers (k : String) : List (String × Json) → List Json
  | [] => []
  | (key, v) :: rest =>
      (if key = k then [v] else []) ++ descend k v ++ descendMembers k rest

/-- Descendant search over the elements of an array, in index order. -/
def descendElems (k : String) : List Json → List Json
  | [] => []
  | v :: rest => descend k v ++ descendElems k rest
end

mutual
/-- Whether key `k` occurs in `j` at any depth: `j` itself or some nested
object (inside objects or arrays) has a member named `k`. -/
def hasKeyDeep (k : String) : Json → Bool
  | .obj members => hasKeyDeepMembers k members
  | .arr elems => hasKeyDeepElems k elems
  | _ => false

/-- Deep key search over the member list of an object. -/
def hasKeyDeepMembers (k : String) : List (String × Json) → Bool
  | [] => false
  | (key, v) :: rest => key = k || hasKeyDeep k v || hasKeyDeepMembers k rest

/-- Deep key search over the elements of an array. -/
def hasKeyDeepElems (k : String) : List Json → Bool
  | [] => false
  | v :: rest => hasKeyDeep k v || hasKeyDeepElems k rest
end

/-- Observation helper: the string value of member `k`, when member `k`
exists and is a string. -/
def strMember (j : Json) (k : String) : Option String :=
  match j.lookup k with
  | some (.str s) => some s
  | _ => none

end Json

/-- JavaScript truthiness of a string-or-undefined value: undefined and
the empty string are falsy, every other string is truthy. -/
def isTruthy : Option String → Bool
  | none => false
  | some s => s ≠ ""

/-- An HTTP response as produced by res.status(s).json(body) (res.json
alone leaves the default status 200). -/
structure HttpResponse where
  status : Nat
  body : Json

/-- What a handler does before any upstream traffic: either an early
return of a response (`respond`; no https.request is ever created on this
branch), or proceed to the upstream request with the given outbound query
parameters (`request`; the list is what URLSearchParams serialises, in
append order). -/
inductive PreOutcome where
  | respond (r : HttpResponse)
  | request (params : List (String × String))

/-- The failure envelope with success false and the given message. -/
def failBody (msg : String) : Json :=
  .obj [("success", .bool false), ("message", .str msg)]

/-- The body of the 500 response sent when OPEN_CORPORATES_KEY is unset
(identical in all three OpenCorporates handlers). -/
def tokenErrBody : Json :=
  failBody ("OpenCorporates API token not configured. Please set OPEN_CORPORATES_KEY in .env file")

/-- The body of the 500 response sent from the catch block when JSON.parse
throws (production mode: the error member is undefined and hence absent
from the serialised body). -/
def parseErrBody : Json :=
  failBody ("Error processing OpenCorporates API response")

/-- Handler of GET /api/health (server.js:27-33): unconditional 200; never
reads the API token.  The timestamp, produced from the current time, is a
parameter. -/
def healthHandler (timestamp : String) : HttpResponse :=
  ⟨200, .obj [("status", .str ("OK")), ("message", .str ("Server is running")),
              ("timestamp", .str timestamp)]⟩

/-- Handler of GET /api/companies/search, server.js:143-170: the part that
runs before https.request.  `q` is req.query.q, `token` is the environment
entry OPEN_CORPORATES_KEY.  Mirrors, in order: the 400 on falsy q, the 500
on falsy token, then URLSearchParams built from q and api_token. -/
def companiesSearchPre (q token : Option String) : PreOutcome :=
  if isTruthy q = false then
    .respond ⟨400, failBody ("Missing required parameter: q (query) is required")⟩
  else if isTruthy token = false then
    .respond ⟨500, tokenErrBody⟩
  else
    .request [("q", q.getD ("")), ("api_token", token.getD (""))]

/-- JavaScript instanceof Object on a parsed JSON value: true exactly for
objects and arrays; null, numbers, strings and booleans are not instances
of Object.  The query entry point of the jsonpath package starts by
asserting this of its payload argument and throws an AssertionError (obj
needs to be an object) when it fails, before any path evaluation. -/
def Json.isInstanceOfObject : Json → Bool
  | .obj _ => true
  | .arr _ => true
  | _ => false

/-- Traversal part of the extraction at server.js:201, path
$.results.companies..company: navigate results then companies, then
descendant-search for company. -/
def extractCompanies (payload : Json) : List Json :=
  match (payload.lookup ("results")).bind (·.lookup ("companies")) with
  | some anchor => Json.descend ("company") anchor
  | none => []

/-- The jp.query call at server.js:201: `none` when the parsed payload is
not an object or array, in which case the real call throws an
AssertionError that the surrounding catch block turns into the 500
processing-error response; otherwise `some` of the traversal result. -/
def queryCompanies (payload : Json) : Option (List Json) :=
  if payload.isInstanceOfObject = false then none
  else some (extractCompanies payload)

/-- The response-end callback of /api/companies/search (server.js:196-217).
`statusCode` is the upstream status, in scope but never read by this
handler; `parsed` is the outcome of JSON.parse on the buffered body.  Both
a JSON.parse throw and a jp.query AssertionError (primitive parsed body)
land in the same catch block and produce the same 500 envelope. -/
def companiesSearchOnEnd (q : String) (statusCode : Nat) (parsed : Option Json) :
    HttpResponse :=
  match parsed with
  | none => ⟨500, parseErrBody⟩
  | some payload =>
      match queryCompanies payload with
      | none => ⟨500, parseErrBody⟩
      | some companies =>
          ⟨200, .obj [("success", .bool true), ("count", .num companies.length),
                      ("data", .arr companies), ("query", .str q)]⟩

/-- The whole /api/companies/search handler for a request that got an
upstream response: the pre-stage short-circuits, otherwise the end
callback runs on the buffered body. -/
def companiesSearch (q token : Option String) (statusCode : Nat)
    (parsed : Option Json) : HttpResponse :=
  match companiesSearchPre q token with
  | .respond r => r
  | .request _ => companiesSearchOnEnd (q.getD ("")) statusCode parsed

/-- Handler of GET /api/companies/:jurisdiction_code/:company_number,
server.js:235-258: the part before https.request.  The path parameters are
strings (Express only matches the route when both segments are non-empty,
but the handler still checks their truthiness).  The outbound path is
built by string interpolation ending in the api_token query parameter,
recorded here as the parameter list. -/
def companyDetailPre (jc cn : String) (token : Option String) : PreOutcome :=
  if jc = "" || cn = "" then
    .respond ⟨400, failBody ("Missing required parameters: jurisdiction_code and company_number are required")⟩
  else if isTruthy token = false then
    .respond ⟨500, tokenErrBody⟩
  else
    .request [("api_token", token.getD (""))]

/-- Traversal part of the extraction at server.js:298, path
$.results.company: a static path, so at most one match. -/
def extractCompany (payload : Json) : List Json :=
  match (payload.lookup ("results")).bind (·.lookup ("company")) with
  | some v => [v]
  | none => []

/-- The jp.query call at server.js:298: `none` models the AssertionError
thrown on a payload that is not an object or array. -/
def queryCompany (payload : Json) : Option (List Json) :=
  if payload.isInstanceOfObject = false then none
  else some (extractCompany payload)

/-- Traversal part of the extraction at server.js:299, path
$.results.company.officers..officer. -/
def extractCompanyOfficers (payload : Json) : List Json :=
  match ((payload.lookup ("results")).bind (·.lookup ("company"))).bind
      (·.lookup ("officers")) with
  | some anchor => Json.descend ("officer") anchor
  | none => []

/-- The jp.query call at server.js:299: `none` models the AssertionError
thrown on a payload that is not an object or array. -/
def queryCompanyOfficers (payload : Json) : Option (List Json) :=
  if payload.isInstanceOfObject = false then none
  else some (extractCompanyOfficers payload)

/-- Traversal part of the extraction at server.js:300, path
$.results.company.ultimate_beneficial_owners..ultimate_beneficial_owner. -/
def extractCompanyUbos (payload : Json) : List Json :=
  match ((payload.lookup ("results")).bind (·.lookup ("company"))).bind
      (·.lookup ("ultimate_beneficial_owners")) with
  | some anchor => Json.descend ("ultimate_beneficial_owner") anchor
  | none => []

/-- The jp.query call at server.js:300: `none` models the AssertionError
thrown on a payload that is not an object or array. -/
def queryCompanyUbos (payload : Json) : Option (List Json) :=
  if payload.isInstanceOfObject = false then none
  else some (extractCompanyUbos payload)

/-- Traversal part of the extraction at server.js:301, path
$.results.company.filings..filing. -/
def extractCompanyFilings (payload : Json) : List Json :=
  match ((payload.lookup ("results")).bind (·.lookup ("company"))).bind
      (·.lookup ("filings")) with
  | some anchor => Json.descend ("filing") anchor
  | none => []

/-- The jp.query call at server.js:301: `none` models the AssertionError
thrown on a payload that is not an object or array. -/
def queryCompanyFilings (payload : Json) : Option (List Json) :=
  if payload.isInstanceOfObject = false then none
  else some (extractCompanyFilings payload)

/-- The response-end callback of the single-company endpoint
(server.js:284-327): on parse success it first forwards any non-200
upstream status with the upstream body under data and the message Error
from OpenCorporates API, otherwise assembles the enriched envelope.  The
or-else-empty-array after the three jp.query calls in the source is a
no-op (jp.query always returns an array, which is truthy in JavaScript).
The status check runs before any jp.query call; on the 200 path a
primitive parsed body makes the first jp.query throw an AssertionError,
caught by the same catch block as a JSON.parse failure (the four calls
share the payload, so either all succeed or the first one throws). -/
def companyDetailOnEnd (jc cn : String) (statusCode : Nat)
    (parsed : Option Json) : HttpResponse :=
  match parsed with
  | none => ⟨500, parseErrBody⟩
  | some payload =>
      if statusCode ≠ 200 then
        ⟨statusCode, .obj [("success", .bool false),
                           ("message", .str ("Error from OpenCorporates API")),
                           ("data", payload)]⟩
      else
        match queryCompany payload, queryCompanyOfficers payload,
            queryCompanyUbos payload, queryCompanyFilings payload with
        | some company, some officers, some beneficialOwners, some filings =>
            ⟨200, .obj [("success", .bool true),
              ("data", .obj [
                ("company", match company with | [] => Json.null | c :: _ => c),
                ("officers", .arr officers),
                ("beneficialOwners", .arr beneficialOwners),
                ("filings", .arr filings),
                ("counts", .obj [
                  ("officers", .num officers.length),
                  ("beneficialOwners", .num beneficialOwners.length),
                  ("filings", .num filings.length)])]),
              ("jurisdiction_code", .str jc),
              ("company_number", .str cn)]⟩
        | _, _, _, _ => ⟨500, parseErrBody⟩

/-- The whole single-company handler for a request that got an upstream
response. -/
def companyDetail (jc cn : String) (token : Option String) (statusCode : Nat)
    (parsed : Option Json) : HttpResponse :=
  match companyDetailPre jc cn token with
  | .respond r => r
  | .request _ => companyDetailOnEnd jc cn statusCode parsed

/-- Handler of GET /api/officers/search, server.js:345-378: the part before
https.request.  After the same q and token checks, URLSearchParams is
built from q and api_token, followed by a conditional append of
jurisdiction_code, so the credential is not the last parameter when a
jurisdiction code is supplied. -/
def officersSearchPre (q jc token : Option String) : PreOutcome :=
  if isTruthy q = false then
    .respond ⟨400, failBody ("Missing required parameter: q (query) is required")⟩
  else if isTruthy token = false then
    .respond ⟨500, tokenErrBody⟩
  else
    .request ([("q", q.getD ("")), ("api_token", token.getD (""))] ++
      (if isTruthy jc then [("jurisdiction_code", jc.getD (""))] else []))

/-- Traversal part of the extraction at server.js:409, path
$.results.officers..officer. -/
def extractOfficers (payload : Json) : List Json :=
  match (payload.lookup ("results")).bind (·.lookup ("officers")) with
  | some anchor => Json.descend ("officer") anchor
  | none => []

/-- The jp.query call at server.js:409: `none` models the AssertionError
thrown on a payload that is not an object or array. -/
def queryOfficers (payload : Json) : Option (List Json) :=
  if payload.isInstanceOfObject = false then none
  else some (extractOfficers payload)

/-- The response-end callback of /api/officers/search (server.js:404-432);
jurisdiction_code is echoed only when it was supplied, and the upstream
status is never read.  A jp.query AssertionError on a primitive parsed
body is caught by the same catch block as a JSON.parse failure. -/
def officersSearchOnEnd (q : String) (jc : Option String) (statusCode : Nat)
    (parsed : Option Json) : HttpResponse :=
  match parsed with
  | none => ⟨500, parseErrBody⟩
  | some payload =>
      match queryOfficers payload with
      | none => ⟨500, parseErrBody⟩
      | some officers =>
          ⟨200, .obj ([("success", .bool true), ("count", .num officers.length),
                       ("data", .arr officers), ("query", .str q)] ++
            (if isTruthy jc then [("jurisdiction_code", .str (jc.getD ("")))] else []))⟩

/-- The whole /api/officers/search handler for a request that got an
upstream response. -/
def officersSearch (q jc token : Option String) (statusCode : Nat)
    (parsed : Option Json) : HttpResponse :=
  match officersSearchPre q jc token with
  | .respond r => r
  | .request _ => officersSearchOnEnd (q.getD ("")) jc statusCode parsed

/-- Concrete upstream body of the companies-search scenario: one company
wrapper whose company object carries the sensitive key. -/
def applePayload : Json :=
  .obj [("results", .obj [("companies", .arr [
    .obj [("company", .obj [("name", .str ("Apple Inc")),
                            ("opencorporates_url", .str ("http://x"))])]])])]

/-- The response body the specification scenario expects for
`applePayload`: the company object with the sensitive key removed. -/
def claimedAppleBody : Json :=
  .obj [("success", .bool true), ("count", .num 1),
        ("data", .arr [.obj [("name", .str ("Apple Inc"))]]),
        ("query", .str ("Apple"))]

/-- Concrete upstream error body of the 404 scenario. -/
def notFoundBody : Json := .obj [("error", .str ("not found"))]

/-- Concrete upstream body for the single-company endpoint: a company with
two wrapped officers, one wrapped filing, and no beneficial owners. -/
def acmePayload : Json :=
  .obj [("results", .obj [("company", .obj [
    ("name", .str ("Acme")),
    ("officers", .arr [
      .obj [("officer", .obj [("name", .str ("A"))])],
      .obj [("officer", .obj [("name", .str ("B"))])]]),
    ("filings", .arr [.obj [("filing", .obj [("id", .num 1)])]])])])]

/-- A caller query mapping that tries to override the credential: it
supplies both a search term and its own api_token value. -/
def spoofingQuery : String → Option String :=
  fun k => if k = "q" then some ("Apple")
           else if k = "api_token" then some ("evil")
           else none

/-- Concrete officers-search upstream body whose two wrappers hold their
officer objects at different depths. -/
def wrappedOfficersPayload : Json :=
  .obj [("results", .obj [("officers", .arr [
    .obj [("officer", .obj [("name", .str ("A"))])],
    .obj [("deep", .obj [("officer", .obj [("name", .str ("B"))])])]])])]

/-- Claim C1 (code bug, evaluation at the failing input): the handlers
contain no sanitization step, so for the scenario upstream payload, whose
company object carries the sensitive opencorporates_url key, the
companies-search response body still contains that key at some depth —
the claimed invariant does not hold of the code. -/
theorem companiesSearch_keeps_sensitive_key :
    Json.hasKeyDeep ("opencorporates_url") applePayload = true ∧
    Json.hasKeyDeep ("opencorporates_url")
      (companiesSearch (some ("Apple")) (some ("secret")) 200 (some applePayload)).body = true :=
  ⟨rfl, rfl⟩

/-- Claim C2 (code bug, evaluation at the failing input): on the scenario
request and upstream body, the code returns the extracted company object
unchanged — opencorporates_url included — so the produced body differs
from the body the claim specifies (which has the key removed). -/
theorem companiesSearch_apple_scenario_actual :
    companiesSearch (some ("Apple")) (some ("secret")) 200 (some applePayload) =
      ⟨200, .obj [("success", .bool true), ("count", .num 1),
        ("data", .arr [.obj [("name", .str ("Apple Inc")),
                             ("opencorporates_url", .str ("http://x"))]]),
        ("query", .str ("Apple"))]⟩ ∧
    (companiesSearch (some ("Apple")) (some ("secret")) 200 (some applePayload)).body ≠
      claimedAppleBody :=
  ⟨rfl, fun h => absurd (congrArg (Json.hasKeyDeep ("opencorporates_url")) h) (by decide)⟩

/-- Claim C3 counterexample: at the concrete 404 scenario the single-company
endpoint does forward status 404 but with message Error from OpenCorporates
API, not the claimed Error from API; and the companies-search endpoint does
not forward upstream status at all (it answers 200 on the same upstream
404), refuting the for-every-endpoint part. -/
theorem companyDetail_error_scenario_counterexample :
    (companyDetail ("us") ("00000000") (some ("secret")) 404 (some notFoundBody)).status = 404 ∧
    Json.strMember
      (companyDetail ("us") ("00000000") (some ("secret")) 404 (some notFoundBody)).body
      ("message") = some ("Error from OpenCorporates API") ∧
    ("Error from OpenCorporates API" : String) ≠ ("Error from API" : String) ∧
    (companiesSearch (some ("Apple")) (some ("secret")) 404 (some notFoundBody)).status = 200 :=
  ⟨rfl, rfl, by decide, rfl⟩

/-- Claim C3 as amended: for every non-200 upstream status with a JSON
body, the single-company endpoint (alone among the endpoints) forwards the
upstream status code with body success false, message Error from
OpenCorporates API, and the upstream body under data. -/
theorem companyDetail_forwards_upstream_error (jc cn tok : String) (st : Nat) (b : Json)
    (hjc : jc ≠ "") (hcn : cn ≠ "") (htok : tok ≠ "") (hst : st ≠ 200) :
    companyDetail jc cn (some tok) st (some b) =
      ⟨st, .obj [("success", .bool false),
                 ("message", .str ("Error from OpenCorporates API")),
                 ("data", b)]⟩ := by
  simp [companyDetail, companyDetailPre, isTruthy, hjc, hcn, htok,
        companyDetailOnEnd, hst]

/-- Witness for the amended claim C3, at the 404 scenario input. -/
theorem companyDetail_forwards_upstream_error_witness :
    companyDetail ("us") ("00000000") (some ("secret")) 404 (some notFoundBody) =
      ⟨404, .obj [("success", .bool false),
                  ("message", .str ("Error from OpenCorporates API")),
                  ("data", notFoundBody)]⟩ :=
  companyDetail_forwards_upstream_error ("us") ("00000000") ("secret") 404 notFoundBody
    (by decide) (by decide) (by decide) (by decide)

/-- Claim C4 counterexample: on a 200 upstream response whose body parses
to the primitive 5, the single-company endpoint does not assemble the
claimed success envelope: the first jp.query call throws (the payload is
not an object), the catch block answers 500 with the processing-error
message, and success is false. -/
theorem companyDetail_primitive_body_counterexample :
    (companyDetail ("us") ("1") (some ("t")) 200 (some (.num 5))).status = 500 ∧
    ((500 : Nat) ≠ 200) ∧
    (companyDetail ("us") ("1") (some ("t")) 200 (some (.num 5))).body = parseErrBody ∧
    Json.strMember parseErrBody ("message") =
      some ("Error processing OpenCorporates API response") ∧
    (parseErrBody.lookup ("success")) = some (.bool false) :=
  ⟨rfl, by decide, rfl, rfl, rfl⟩

/-- Claim C4 as amended: on a 200 upstream response whose body parses to
an object or array — so that the jp.query calls do not throw — the
single-company endpoint assembles success true, data holding the first
extracted company (or null when the extraction is empty), the three
extracted lists, and counts equal to the length of each list, with the
two path identifiers echoed; a primitive parsed body instead lands in the
catch block and yields the 500 processing-error envelope. -/
theorem companyDetail_success_envelope (jc cn tok : String) (b : Json)
    (hjc : jc ≠ "") (hcn : cn ≠ "") (htok : tok ≠ "")
    (hb : b.isInstanceOfObject = true) :
    companyDetail jc cn (some tok) 200 (some b) =
      ⟨200, .obj [("success", .bool true),
        ("data", .obj [
          ("company", (extractCompany b).headD Json.null),
          ("officers", .arr (extractCompanyOfficers b)),
          ("beneficialOwners", .arr (extractCompanyUbos b)),
          ("filings", .arr (extractCompanyFilings b)),
          ("counts", .obj [
            ("officers", .num (extractCompanyOfficers b).length),
            ("beneficialOwners", .num (extractCompanyUbos b).length),
            ("filings", .num (extractCompanyFilings b).length)])]),
        ("jurisdiction_code", .str jc),
        ("company_number", .str cn)]⟩ := by
  simp [companyDetail, companyDetailPre, isTruthy, hjc, hcn, htok,
        companyDetailOnEnd, queryCompany, queryCompanyOfficers,
        queryCompanyUbos, queryCompanyFilings, hb]
  cases extractCompany b <;> rfl

/-- Witness for claim C4: the envelope fully evaluated on a concrete
company record with two officers, one filing and no beneficial owners. -/
theorem companyDetail_success_envelope_witness :
    ("us" : String) ≠ "" ∧ ("1" : String) ≠ "" ∧ ("t" : String) ≠ "" ∧
    Json.isInstanceOfObject acmePayload = true ∧
    companyDetail ("us") ("1") (some ("t")) 200 (some acmePayload) =
      ⟨200, .obj [("success", .bool true),
        ("data", .obj [
          ("company", .obj [
            ("name", .str ("Acme")),
            ("officers", .arr [
              .obj [("officer", .obj [("name", .str ("A"))])],
              .obj [("officer", .obj [("name", .str ("B"))])]]),
            ("filings", .arr [.obj [("filing", .obj [("id", .num 1)])]])]),
          ("officers", .arr [.obj [("name", .str ("A"))], .obj [("name", .str ("B"))]]),
          ("beneficialOwners", .arr []),
          ("filings", .arr [.obj [("id", .num 1)]]),
          ("counts", .obj [
            ("officers", .num 2),
            ("beneficialOwners", .num 0),
            ("filings", .num 1)])]),
        ("jurisdiction_code", .str ("us")),
        ("company_number", .str ("1"))]⟩ :=
  ⟨by decide, by decide, by decide, rfl,
   companyDetail_success_envelope ("us") ("1") ("t") acmePayload
     (by decide) (by decide) (by decide) rfl⟩

/-- Claim C5: whenever a search handler reaches its upstream request, the
outbound parameter list carries api_token exactly once, with the
server-held credential as its value — the caller cannot override it, since
the handlers never read a caller parameter of that name — and every other
forwarded parameter is one the caller supplied with a non-empty value. -/
theorem searchParams_credential_and_no_empty (query : String → Option String)
    (token : String) (ps : List (String × String))
    (h : companiesSearchPre (query ("q")) (some token) = .request ps ∨
         officersSearchPre (query ("q")) (query ("jurisdiction_code")) (some token) = .request ps) :
    (ps.filter (fun p => p.1 = "api_token")).map (fun p => p.2) = [token] ∧
    ∀ p ∈ ps, p.1 = "api_token" ∨ (query p.1 = some p.2 ∧ p.2 ≠ "") := by
  rcases h with h | h
  · cases hq : query ("q") with
    | none => simp [companiesSearchPre, isTruthy, hq] at h
    | some s =>
      by_cases hs : s = ""
      · simp [companiesSearchPre, isTruthy, hq, hs] at h
      · by_cases ht : token = ""
        · simp [companiesSearchPre, isTruthy, hq, hs, ht] at h
        · simp [companiesSearchPre, isTruthy, hq, hs, ht] at h
          subst h
          refine ⟨by simp, ?_⟩
          intro p hp
          rcases List.mem_pair.mp hp with rfl | rfl
          · exact Or.inr ⟨hq, hs⟩
          · exact Or.inl rfl
  · cases hq : query ("q") with
    | none => simp [officersSearchPre, isTruthy, hq] at h
    | some s =>
      by_cases hs : s = ""
      · simp [officersSearchPre, isTruthy, hq, hs] at h
      · by_cases ht : token = ""
        · simp [officersSearchPre, isTruthy, hq, hs, ht] at h
        · cases hjc : query ("jurisdiction_code") with
          | none =>
            simp [officersSearchPre, isTruthy, hq, hs, ht, hjc] at h
            subst h
            refine ⟨by simp, ?_⟩
            intro p hp
            rcases List.mem_pair.mp hp with rfl | rfl
            · exact Or.inr ⟨hq, hs⟩
            · exact Or.inl rfl
          | some j =>
            by_cases hj : j = ""
            · simp [officersSearchPre, isTruthy, hq, hs, ht, hjc, hj] at h
              subst h
              refine ⟨by simp, ?_⟩
              intro p hp
              rcases List.mem_pair.mp hp with rfl | rfl
              · exact Or.inr ⟨hq, hs⟩
              · exact Or.inl rfl
            · simp [officersSearchPre, isTruthy, hq, hs, ht, hjc, hj] at h
              subst h
              refine ⟨by simp, ?_⟩
              intro p hp
              simp only [List.mem_cons, List.not_mem_nil, or_false] at hp
              rcases hp with rfl | rfl | rfl
              · exact Or.inr ⟨hq, hs⟩
              · exact Or.inl rfl
              · exact Or.inr ⟨hjc, hj⟩

/-- Witness for claim C5: a caller that supplies its own api_token value
still gets the server credential, exactly once, in the outbound list. -/
theorem searchParams_credential_and_no_empty_witness :
    (([("q", "Apple"), ("api_token", "secret")] : List (String × String)).filter
        (fun p => p.1 = "api_token")).map (fun p => p.2) = ["secret"] ∧
    ∀ p ∈ ([("q", "Apple"), ("api_token", "secret")] : List (String × String)),
      p.1 = "api_token" ∨ (spoofingQuery p.1 = some p.2 ∧ p.2 ≠ "") :=
  searchParams_credential_and_no_empty spoofingQuery ("secret")
    [("q", "Apple"), ("api_token", "secret")] (Or.inl rfl)

/-- Claim C6: when results.officers is an array whose elements each yield
exactly one officer object under descendant search — at whatever nesting
depth the wrapper places it — the officers extraction returns precisely
those officer objects, flattened, in array-index (depth-first traversal)
order. -/
theorem officers_descendant_search_flattens (payload : Json) (ws os : List Json)
    (hnav : (payload.lookup ("results")).bind (·.lookup ("officers")) = some (.arr ws))
    (hwrap : List.Forall₂ (fun w o => Json.descend ("officer") w = [o]) ws os) :
    queryOfficers payload = some os := by
  have key : ∀ (l : List Json) (l' : List Json),
      List.Forall₂ (fun w o => Json.descend ("officer") w = [o]) l l' →
      Json.descendElems ("officer") l = l' := by
    intro l l' hf
    induction hf with
    | nil => rfl
    | cons h _ ih => simp [Json.descendElems, h, ih]
  cases payload with
  | obj members =>
      simp [queryOfficers, Json.isInstanceOfObject, extractOfficers, hnav,
            Json.descend]
      exact key ws os hwrap
  | null => simp [Json.lookup] at hnav
  | bool b => simp [Json.lookup] at hnav
  | num n => simp [Json.lookup] at hnav
  | str s => simp [Json.lookup] at hnav
  | arr es => simp [Json.lookup] at hnav

/-- Witness for claim C6: two wrappers holding their officer objects at
different depths are flattened in index order. -/
theorem officers_descendant_search_flattens_witness :
    queryOfficers wrappedOfficersPayload =
      some [.obj [("name", .str ("A"))], .obj [("name", .str ("B"))]] :=
  officers_descendant_search_flattens wrappedOfficersPayload
    [.obj [("officer", .obj [("name", .str ("A"))])],
     .obj [("deep", .obj [("officer", .obj [("name", .str ("B"))])])]]
    [.obj [("name", .str ("A"))], .obj [("name", .str ("B"))]]
    rfl
    (List.Forall₂.cons rfl (List.Forall₂.cons rfl List.Forall₂.nil))

/-- Claim C7 counterexample: the primitive payload 5 lacks every queried
path (it has no results member at all), yet every jp.query call of the
pipeline throws on it — modelled by `none` — instead of returning the
empty sequence, because the package asserts that its payload is an
object before evaluating any path. -/
theorem extraction_throws_on_primitive_counterexample :
    (Json.num 5).lookup ("results") = none ∧
    queryCompanies (.num 5) = none ∧ queryCompany (.num 5) = none ∧
    queryCompanyOfficers (.num 5) = none ∧ queryCompanyUbos (.num 5) = none ∧
    queryCompanyFilings (.num 5) = none ∧ queryOfficers (.num 5) = none :=
  ⟨rfl, rfl, rfl, rfl, rfl, rfl, rfl⟩

/-- Claim C7 as amended: on a payload that is an object or array — so the
entry assertion of jp.query passes — each extraction of the pipeline
returns the empty list, without error, whenever the anchor of its path is
missing; on a primitive payload every jp.query call instead throws an
AssertionError, which the handlers catch into the 500 processing-error
response. -/
theorem extraction_empty_on_missing_path (payload : Json)
    (hobj : payload.isInstanceOfObject = true) :
    ((payload.lookup ("results")).bind (·.lookup ("companies")) = none →
      queryCompanies payload = some []) ∧
    ((payload.lookup ("results")).bind (·.lookup ("company")) = none →
      queryCompany payload = some []) ∧
    (((payload.lookup ("results")).bind (·.lookup ("company"))).bind (·.lookup ("officers")) = none →
      queryCompanyOfficers payload = some []) ∧
    (((payload.lookup ("results")).bind (·.lookup ("company"))).bind (·.lookup ("ultimate_beneficial_owners")) = none →
      queryCompanyUbos payload = some []) ∧
    (((payload.lookup ("results")).bind (·.lookup ("company"))).bind (·.lookup ("filings")) = none →
      queryCompanyFilings payload = some []) ∧
    ((payload.lookup ("results")).bind (·.lookup ("officers")) = none →
      queryOfficers payload = some []) :=
  ⟨fun h => by simp [queryCompanies, extractCompanies, hobj, h],
   fun h => by simp [queryCompany, extractCompany, hobj, h],
   fun h => by simp [queryCompanyOfficers, extractCompanyOfficers, hobj, h],
   fun h => by simp [queryCompanyUbos, extractCompanyUbos, hobj, h],
   fun h => by simp [queryCompanyFilings, extractCompanyFilings, hobj, h],
   fun h => by simp [queryOfficers, extractOfficers, hobj, h]⟩

/-- Witness for the amended claim C7: every extraction yields `some []` on
the empty object, which passes the assertion and lacks all the queried
paths. -/
theorem extraction_empty_on_missing_path_witness :
    queryCompanies (.obj []) = some [] ∧ queryCompany (.obj []) = some [] ∧
    queryCompanyOfficers (.obj []) = some [] ∧ queryCompanyUbos (.obj []) = some [] ∧
    queryCompanyFilings (.obj []) = some [] ∧ queryOfficers (.obj []) = some [] :=
  ⟨(extraction_empty_on_missing_path (.obj []) rfl).1 rfl,
   (extraction_empty_on_missing_path (.obj []) rfl).2.1 rfl,
   (extraction_empty_on_missing_path (.obj []) rfl).2.2.1 rfl,
   (extraction_empty_on_missing_path (.obj []) rfl).2.2.2.1 rfl,
   (extraction_empty_on_missing_path (.obj []) rfl).2.2.2.2.1 rfl,
   (extraction_empty_on_missing_path (.obj []) rfl).2.2.2.2.2 rfl⟩

/-- Claim C8: a companies-search request with q absent or empty gets the
400 response with the exact claimed message, and the pre-stage answers
with respond, meaning the handler returns before https.request is ever
reached — no upstream request is issued. -/
theorem companiesSearch_missing_q (q token : Option String) (st : Nat)
    (parsed : Option Json) (h : isTruthy q = false) :
    companiesSearchPre q token =
      .respond ⟨400, failBody ("Missing required parameter: q (query) is required")⟩ ∧
    companiesSearch q token st parsed =
      ⟨400, failBody ("Missing required parameter: q (query) is required")⟩ := by
  constructor <;> simp [companiesSearchPre, companiesSearch, h]

/-- Witness for claim C8, at both falsy inputs: q absent and q empty. -/
theorem companiesSearch_missing_q_witness :
    (isTruthy none = false ∧
      companiesSearch none (some ("secret")) 200 none =
        ⟨400, failBody ("Missing required parameter: q (query) is required")⟩) ∧
    (isTruthy (some ("")) = false ∧
      companiesSearchPre (some ("")) (some ("secret")) =
        .respond ⟨400, failBody ("Missing required parameter: q (query) is required")⟩) :=
  ⟨⟨rfl, (companiesSearch_missing_q none (some ("secret")) 200 none rfl).2⟩,
   ⟨rfl, (companiesSearch_missing_q (some ("")) (some ("secret")) 200 none rfl).1⟩⟩

/-- Claim C9 counterexample: with the credential unset, the health endpoint
answers 200, not 500; and the companies-search failure message does not
begin with the claimed text API token not configured (it begins with
OpenCorporates). -/
theorem token_unset_claim_counterexample :
    (healthHandler ("2025-01-01T00:00:00.000Z")).status = 200 ∧
    (companiesSearch (some ("Apple")) none 200 none).status = 500 ∧
    Json.strMember (companiesSearch (some ("Apple")) none 200 none).body ("message") =
      some ("OpenCorporates API token not configured. Please set OPEN_CORPORATES_KEY in .env file") ∧
    List.isPrefixOf ("API token not configured").data
      ("OpenCorporates API token not configured. Please set OPEN_CORPORATES_KEY in .env file").data
      = false :=
  ⟨rfl, rfl, rfl, by decide⟩

/-- Claim C9 as amended: with the credential unset, each of the three
OpenCorporates endpoints short-circuits before any upstream request with
HTTP 500 and a failure envelope whose message begins OpenCorporates API
token not configured; the health endpoint is not affected. -/
theorem token_unset_oc_endpoints_500 (q jcq : Option String) (jc cn : String)
    (hq : isTruthy q = true) (hjc : jc ≠ "") (hcn : cn ≠ "") :
    companiesSearchPre q none = .respond ⟨500, tokenErrBody⟩ ∧
    companyDetailPre jc cn none = .respond ⟨500, tokenErrBody⟩ ∧
    officersSearchPre q jcq none = .respond ⟨500, tokenErrBody⟩ ∧
    Json.strMember tokenErrBody ("message") =
      some ("OpenCorporates API token not configured. Please set OPEN_CORPORATES_KEY in .env file") ∧
    List.isPrefixOf ("OpenCorporates API token not configured").data
      ("OpenCorporates API token not configured. Please set OPEN_CORPORATES_KEY in .env file").data
      = true := by
  have hnone : isTruthy none = false := rfl
  refine ⟨?_, ?_, ?_, rfl, by decide⟩
  · simp [companiesSearchPre, hq, hnone]
  · simp [companyDetailPre, hjc, hcn, hnone]
  · simp [officersSearchPre, hq, hnone]

/-- Witness for the amended claim C9 at concrete valid requests. -/
theorem token_unset_oc_endpoints_500_witness :
    isTruthy (some ("Apple")) = true ∧ ("us" : String) ≠ "" ∧ ("1" : String) ≠ "" ∧
    (companiesSearchPre (some ("Apple")) none = .respond ⟨500, tokenErrBody⟩ ∧
     companyDetailPre ("us") ("1") none = .respond ⟨500, tokenErrBody⟩ ∧
     officersSearchPre (some ("Apple")) none none = .respond ⟨500, tokenErrBody⟩ ∧
     Json.strMember tokenErrBody ("message") =
       some ("OpenCorporates API token not configured. Please set OPEN_CORPORATES_KEY in .env file") ∧
     List.isPrefixOf ("OpenCorporates API token not configured").data
       ("OpenCorporates API token not configured. Please set OPEN_CORPORATES_KEY in .env file").data
       = true) :=
  ⟨rfl, by decide, by decide,
   token_unset_oc_endpoints_500 (some ("Apple")) none ("us") ("1") rfl
     (by decide) (by decide)⟩

/-- Claim C10 counterexample: the body 5 parses as JSON, yet the
companies-search end callback answers 500 (the jp.query assertion throws
on a primitive payload and is caught), not the claimed 200 success
envelope — so parse success alone does not guarantee a 200. -/
theorem companiesSearch_primitive_body_counterexample :
    companiesSearchOnEnd ("Apple") 404 (some (.num 5)) = ⟨500, parseErrBody⟩ ∧
    ((500 : Nat) ≠ 200) :=
  ⟨rfl, by decide⟩

/-- Claim C10 as amended: the companies-search end callback never inspects
the upstream status — its result is the same at any two status codes —
and on any body that parses to an object or array it answers 200 with
success true, the extracted list, its length as count, and the echoed
query; a body that parses to a primitive yields the 500 processing-error
envelope instead. -/
theorem companiesSearchOnEnd_ignores_status (q : String) (s1 s2 : Nat)
    (parsed : Option Json) (payload : Json) :
    companiesSearchOnEnd q s1 parsed = companiesSearchOnEnd q s2 parsed ∧
    (payload.isInstanceOfObject = true →
      companiesSearchOnEnd q s1 (some payload) =
        ⟨200, .obj [("success", .bool true),
                    ("count", .num (extractCompanies payload).length),
                    ("data", .arr (extractCompanies payload)),
                    ("query", .str q)]⟩) ∧
    (payload.isInstanceOfObject = false →
      companiesSearchOnEnd q s1 (some payload) = ⟨500, parseErrBody⟩) :=
  ⟨by cases parsed <;> rfl,
   fun h => by simp [companiesSearchOnEnd, queryCompanies, h],
   fun h => by simp [companiesSearchOnEnd, queryCompanies, h]⟩

/-- Witness for the amended claim C10: status independence at two statuses,
the 200 envelope on the scenario object payload, and the 500 on the
primitive payload 5. -/
theorem companiesSearchOnEnd_ignores_status_witness :
    companiesSearchOnEnd ("Apple") 404 (some applePayload) =
      companiesSearchOnEnd ("Apple") 500 (some applePayload) ∧
    companiesSearchOnEnd ("Apple") 404 (some applePayload) =
      ⟨200, .obj [("success", .bool true), ("count", .num 1),
        ("data", .arr [.obj [("name", .str ("Apple Inc")),
                             ("opencorporates_url", .str ("http://x"))]]),
        ("query", .str ("Apple"))]⟩ ∧
    companiesSearchOnEnd ("Apple") 404 (some (Json.num 5)) = ⟨500, parseErrBody⟩ :=
  ⟨(companiesSearchOnEnd_ignores_status ("Apple") 404 500 (some applePayload) applePayload).1,
   (companiesSearchOnEnd_ignores_status ("Apple") 404 500 (some applePayload) applePayload).2.1 rfl,
   (companiesSearchOnEnd_ignores_status ("Apple") 404 500 (some (Json.num 5)) (Json.num 5)).2.2 rfl⟩
